/-
  Verification of the claude-memory observation store.

  Shallow embedding of the SQLite-backed `SessionStore` (src/services/database.js),
  the context generator (src/services/context-generator.js), the worker's
  `createSimpleObservation` (src/services/worker-service.js) and the helpers they
  use.  JavaScript strings are modelled as Lean `String`; JS string builtins
  (`startsWith`, `substring`, `length`, `includes`, `substring(0,n)`) are modelled
  character-wise on `String.data`.  `JSON.stringify`/`JSON.parse` on arrays of
  strings are modelled by `encodeJsonArray`/`decodeJsonArray` below (escaping of
  quote and backslash; control-character escapes are omitted, which does not
  affect any round-trip statement).  Machine integers do not overflow in any of
  the modelled code paths, so counters and epochs are `Nat`.
-/
import Mathlib

namespace ClaudeMemory

/-! ## JavaScript-semantics helpers -/

/-- Models JS `v || dflt` for a possibly-undefined string `v`:
`undefined` and the empty string are falsy. -/
def jsOrStr (v : Option String) (dflt : String) : String :=
  match v with
  | none => dflt
  | some s => if s = "" then dflt else s

/-- Models JS `v || null` for a possibly-undefined string `v`. -/
def jsOrNull (v : Option String) : Option String :=
  match v with
  | none => none
  | some s => if s = "" then none else some s

/-- Models JS truthiness of a possibly-undefined string. -/
def jsTruthy (v : Option String) : Bool :=
  match v with
  | none => false
  | some s => !(s == "")

/-- Models JS `s.includes(t)` (substring containment). -/
def jsIncludes (s t : String) : Bool :=
  decide (t.data <:+: s.data)

/-- Models JS `s.length`. -/
def jsLength (s : String) : Nat := s.data.length

/-- Models JS `s.substring(n)` (drop the first `n` characters). -/
def jsSubstringFrom (s : String) (n : Nat) : String := ⟨s.data.drop n⟩

/-- Models JS `s.substring(0, n)` (take the first `n` characters). -/
def jsTake (s : String) (n : Nat) : String := ⟨s.data.take n⟩

/-- Models JS `s.startsWith(p)`. -/
def jsStartsWith (s p : String) : Bool :=
  p.data.isPrefixOf s.data

/-! ## JSON serialization of string arrays

Models `JSON.stringify` on an array of strings and `JSON.parse` restricted to
the array-of-strings fragment that the store ever writes. -/

/-- Escape one character the way `JSON.stringify` does for quote and
backslash. -/
def escChar (c : Char) : List Char :=
  if c = '"' then ['\\', '"']
  else if c = '\\' then ['\\', '\\']
  else [c]

/-- Escape a whole string body. -/
def escStr : List Char → List Char
  | [] => []
  | c :: cs => escChar c ++ escStr cs

/-- `JSON.stringify` of one string, as characters (quotes included). -/
def encodeStrChars (s : List Char) : List Char :=
  '"' :: escStr s ++ ['"']

/-- Encode the tail of a non-empty array: elements separated by commas,
closed by the final bracket. -/
def encTail : List (List Char) → List Char
  | [] => [']']
  | [s] => encodeStrChars s ++ [']']
  | s :: rest => encodeStrChars s ++ ',' :: encTail rest

/-- Models `JSON.stringify` on a `List String`. -/
def encodeJsonArray (l : List String) : String :=
  match l with
  | [] => "[]"
  | _ => ⟨'[' :: encTail (l.map String.data)⟩

/-- Unescape one escaped character. -/
def unescChar (c : Char) : Option Char :=
  if c = '"' then some '"'
  else if c = '\\' then some '\\'
  else none

/-- Parse a JSON string body up to (and consuming) the closing quote; returns
the decoded characters and the remainder of the input. -/
def parseStrBody : List Char → Option (List Char × List Char)
  | [] => none
  | c :: cs =>
    if c = '"' then some ([], cs)
    else if c = '\\' then
      match cs with
      | [] => none
      | d :: ds =>
        match unescChar d with
        | none => none
        | some e =>
          match parseStrBody ds with
          | none => none
          | some (s, r) => some (e :: s, r)
    else
      match parseStrBody cs with
      | none => none
      | some (s, r) => some (c :: s, r)

/-- Parse a comma-separated list of JSON strings terminated by the closing
bracket.  `fuel` bounds recursion depth. -/
def parseElems : Nat → List Char → Option (List (List Char) × List Char)
  | 0, _ => none
  | _ + 1, [] => none
  | fuel + 1, c :: rest =>
    if c = '"' then
      match parseStrBody rest with
      | none => none
      | some (s, r) =>
        match r with
        | [] => none
        | c2 :: r2 =>
          if c2 = ',' then
            match parseElems fuel r2 with
            | none => none
            | some (ss, rr) => some (s :: ss, rr)
          else if c2 = ']' then some ([s], r2)
          else none
    else none

/-- Models `JSON.parse` restricted to arrays of strings: returns `none` for
anything that is not such an array. -/
def decodeJsonArray (str : String) : Option (List String) :=
  match str.data with
  | [] => none
  | c :: rest =>
    if c = '[' then
      match rest with
      | [] => none
      | d :: rest2 =>
        if d = ']' ∧ rest2 = [] then some []
        else
          match parseElems rest.length rest with
          | some (ss, []) => some (ss.map fun s => ⟨s⟩)
          | _ => none
    else none

/-! ### Round-trip lemmas for the JSON model -/

theorem parseStrBody_escStr (s rest : List Char) :
    parseStrBody (escStr s ++ '"' :: rest) = some (s, rest) := by
  induction s with
  | nil =>
    rw [escStr, List.nil_append, parseStrBody.eq_def]
    simp
  | cons c cs ih =>
    by_cases hq : c = '"'
    · subst hq
      rw [escStr, escChar]
      simp only [reduceIte, List.cons_append, List.append_assoc]
      rw [parseStrBody.eq_def]
      simp [unescChar, ih]
    · by_cases hb : c = '\\'
      · subst hb
        rw [escStr, escChar]
        simp only [reduceIte, List.cons_append, List.append_assoc]
        rw [parseStrBody.eq_def]
        simp [unescChar, ih]
      · rw [escStr, escChar, if_neg hq, if_neg hb]
        simp only [List.cons_append, List.nil_append]
        rw [parseStrBody.eq_def]
        simp [hq, hb, ih]

theorem parseElems_encTail (ss : List (List Char)) (s : List Char) :
    ∀ fuel : Nat, (s :: ss).length ≤ fuel →
      parseElems fuel (encTail (s :: ss)) = some (s :: ss, []) := by
  induction ss generalizing s with
  | nil =>
    intro fuel hf
    match fuel, hf with
    | fuel + 1, _ =>
      have h1 : encTail [s] = '"' :: (escStr s ++ '"' :: [']']) := by
        simp [encTail, encodeStrChars]
      rw [h1, parseElems.eq_def]
      simp [parseStrBody_escStr]
  | cons t ts ih =>
    intro fuel hf
    match fuel, hf with
    | fuel + 1, hf =>
      have hlen : (t :: ts).length ≤ fuel := by
        simp only [List.length_cons] at hf ⊢
        omega
      have h1 : encTail (s :: t :: ts)
          = '"' :: (escStr s ++ '"' :: (',' :: encTail (t :: ts))) := by
        simp [encTail, encodeStrChars]
      rw [h1, parseElems.eq_def]
      simp [parseStrBody_escStr, ih t fuel hlen]

theorem encTail_length_ge (ss : List (List Char)) (s : List Char) :
    (s :: ss).length ≤ (encTail (s :: ss)).length := by
  induction ss generalizing s with
  | nil => simp [encTail, encodeStrChars]
  | cons t ts ih =>
    have := ih t
    simp only [encTail, encodeStrChars] at *
    simp only [List.length_cons, List.length_append] at *
    omega

theorem encTail_cons_head (s : List Char) (ss : List (List Char)) :
    ∃ tl, encTail (s :: ss) = '"' :: tl := by
  match ss with
  | [] => exact ⟨escStr s ++ ['"', ']'], by simp [encTail, encodeStrChars]⟩
  | t :: ts =>
    exact ⟨escStr s ++ '"' :: ',' :: encTail (t :: ts), by simp [encTail, encodeStrChars]⟩

theorem string_mk_data (s : String) : String.mk s.data = s := by
  cases s
  rfl

/-- The JSON model round-trips every list of strings. -/
theorem decode_encode (l : List String) :
    decodeJsonArray (encodeJsonArray l) = some l := by
  match l with
  | [] => rfl
  | x :: xs =>
    have henc : (encodeJsonArray (x :: xs)).data
        = '[' :: encTail (x.data :: xs.map String.data) := rfl
    have hlen : (x.data :: xs.map String.data).length
        ≤ (encTail (x.data :: xs.map String.data)).length :=
      encTail_length_ge (xs.map String.data) x.data
    have hparse := parseElems_encTail (xs.map String.data) x.data
      (encTail (x.data :: xs.map String.data)).length hlen
    obtain ⟨tl, htl⟩ := encTail_cons_head x.data (xs.map String.data)
    rw [decodeJsonArray.eq_def]
    rw [henc, htl]
    simp only [reduceIte, List.cons_ne_nil, and_false, if_false]
    rw [← htl, hparse]
    simp [List.map_map, Function.comp_def, string_mk_data, List.map_id'']

/-! ## Data model

Rows of the three tables used by the claims, mirroring the schema
created in `SessionStore.initializeSchema`.  Nullable TEXT columns are
`Option String`; epochs and counters are `Nat` (database INTEGER -
non-negative in every modelled path).  `started_at`/`created_at` ISO text
columns carry no information beyond the epoch for the claims at hand and
are represented by the epoch alone. -/

structure SessionRow where
  id : Nat
  session_id : String
  project : String
  user_prompt : Option String
  prompt_counter : Nat
  started_at_epoch : Nat
  completed_at_epoch : Option Nat
  status : String
  deriving Repr, DecidableEq

structure ObservationRow where
  id : Nat
  session_id : String
  project : String
  type : String
  title : Option String
  subtitle : Option String
  facts : Option String
  narrative : Option String
  concepts : Option String
  files_read : Option String
  files_modified : Option String
  prompt_number : Option Nat
  discovery_tokens : Nat
  created_at_epoch : Nat
  deriving Repr, DecidableEq

structure SummaryRow where
  id : Nat
  session_id : String
  project : String
  request : Option String
  investigated : Option String
  learned : Option String
  completed : Option String
  next_steps : Option String
  notes : Option String
  prompt_number : Option Nat
  discovery_tokens : Nat
  created_at_epoch : Nat
  deriving Repr, DecidableEq

/-- Database state: table contents plus the AUTOINCREMENT counters. -/
structure DB where
  sessions : List SessionRow
  observations : List ObservationRow
  summaries : List SummaryRow
  nextSessionId : Nat
  nextObservationId : Nat
  nextSummaryId : Nat
  deriving Repr, DecidableEq

def emptyDB : DB :=
  { sessions := [], observations := [], summaries := []
    nextSessionId := 1, nextObservationId := 1, nextSummaryId := 1 }

/-- The argument record of `storeObservation` (fields of the JS
`observation` object; any of them may be `undefined`). -/
structure ObservationInput where
  type : Option String
  title : Option String
  subtitle : Option String
  facts : Option (List String)
  narrative : Option String
  concepts : Option (List String)
  files_read : Option (List String)
  files_modified : Option (List String)
  deriving Repr, DecidableEq

/-- The argument record of `storeSummary`. -/
structure SummaryInput where
  request : Option String
  investigated : Option String
  learned : Option String
  completed : Option String
  next_steps : Option String
  notes : Option String
  deriving Repr, DecidableEq

/-- The CHECK constraint of the `observations` table:
`type IN ('decision','bugfix','feature','refactor','discovery','change')`. -/
def checkObsType (t : String) : Bool :=
  ["decision", "bugfix", "feature", "refactor", "discovery", "change"].any (fun v => t == v)

/-! ## Store operations (SessionStore, src/services/database.js)

Each operation takes the current `DB` and, where the source reads the wall
clock (`new Date()`), an explicit `now` epoch, and returns the new `DB`
together with the source function's return value. -/

/-- `createSession(sessionId, project, userPrompt = '')`:
`INSERT OR IGNORE`, then - when the insert was ignored and `project` is
truthy - an unconditional `UPDATE` of `project` and `user_prompt`, then
`SELECT id`. -/
def createSession (db : DB) (sessionId project userPrompt : String) (now : Nat) :
    DB × Option Nat :=
  if db.sessions.any (fun r => r.session_id == sessionId) then
    -- insert ignored (unique session_id already present)
    let db1 :=
      if project ≠ "" then
        { db with sessions := db.sessions.map (fun r =>
            if r.session_id == sessionId then
              { r with project := project, user_prompt := some userPrompt }
            else r) }
      else db
    (db1, (db1.sessions.find? (fun r => r.session_id == sessionId)).map (·.id))
  else
    let row : SessionRow :=
      { id := db.nextSessionId, session_id := sessionId, project := project
        user_prompt := some userPrompt, prompt_counter := 0
        started_at_epoch := now, completed_at_epoch := none, status := "active" }
    let db1 := { db with sessions := db.sessions ++ [row]
                         nextSessionId := db.nextSessionId + 1 }
    (db1, (db1.sessions.find? (fun r => r.session_id == sessionId)).map (·.id))

/-- `getSession(sessionId)`. -/
def getSession (db : DB) (sessionId : String) : Option SessionRow :=
  db.sessions.find? (fun r => r.session_id == sessionId)

/-- `incrementPromptCounter(sessionId)`: `UPDATE ... SET prompt_counter =
prompt_counter + 1`, then `SELECT`; the JS return is
`result?.prompt_counter || 1`, so a missing row - and a zero counter -
yield 1. -/
def incrementPromptCounter (db : DB) (sessionId : String) : DB × Nat :=
  let db1 := { db with sessions := db.sessions.map (fun r =>
      if r.session_id == sessionId then
        { r with prompt_counter := r.prompt_counter + 1 }
      else r) }
  let v := match db1.sessions.find? (fun r => r.session_id == sessionId) with
    | none => 1
    | some r => if r.prompt_counter = 0 then 1 else r.prompt_counter
  (db1, v)

/-- `getPromptCounter(sessionId)` (`result?.prompt_counter || 0`). -/
def getPromptCounter (db : DB) (sessionId : String) : Nat :=
  match db.sessions.find? (fun r => r.session_id == sessionId) with
  | none => 0
  | some r => r.prompt_counter

/-- `markSessionCompleted(sessionId)`. -/
def markSessionCompleted (db : DB) (sessionId : String) (now : Nat) : DB :=
  { db with sessions := db.sessions.map (fun r =>
      if r.session_id == sessionId then
        { r with status := "completed", completed_at_epoch := some now }
      else r) }

/-- The value returned by `storeObservation`/`storeSummary`. -/
structure StoreResult where
  id : Nat
  createdAtEpoch : Nat
  deriving Repr, DecidableEq

/-- `storeObservation(sessionId, project, observation, promptNumber = null,
discoveryTokens = 0)`: first ensures the session exists via
`createSession(sessionId, project, '')`, then runs the INSERT.  The INSERT
binds `observation.type || 'change'` for the `type` column; the schema's
CHECK constraint rejects any value outside the six enum types, which
better-sqlite3 surfaces as a thrown error (modelled as `Except.error`). -/
def storeObservation (db : DB) (sessionId project : String)
    (observation : ObservationInput) (promptNumber : Option Nat)
    (discoveryTokens : Nat) (now : Nat) : DB × Except String StoreResult :=
  let db1 := (createSession db sessionId project "" now).1
  let typeVal := jsOrStr observation.type "change"
  if checkObsType typeVal then
    let row : ObservationRow :=
      { id := db1.nextObservationId
        session_id := sessionId
        project := project
        type := typeVal
        title := jsOrNull observation.title
        subtitle := jsOrNull observation.subtitle
        facts := some (encodeJsonArray (observation.facts.getD []))
        narrative := jsOrNull observation.narrative
        concepts := some (encodeJsonArray (observation.concepts.getD []))
        files_read := some (encodeJsonArray (observation.files_read.getD []))
        files_modified := some (encodeJsonArray (observation.files_modified.getD []))
        prompt_number := promptNumber
        discovery_tokens := discoveryTokens
        created_at_epoch := now }
    let db2 := { db1 with observations := db1.observations ++ [row]
                          nextObservationId := db1.nextObservationId + 1 }
    (db2, Except.ok { id := row.id, createdAtEpoch := now })
  else
    (db1, Except.error "CHECK constraint failed: observations")

/-- `getObservationById(id)`. -/
def getObservationById (db : DB) (id : Nat) : Option ObservationRow :=
  db.observations.find? (fun o => o.id == id)

/-- Descending creation-epoch order used by `ORDER BY created_at_epoch DESC`. -/
def obsGe (a b : ObservationRow) : Prop :=
  b.created_at_epoch ≤ a.created_at_epoch

instance : DecidableRel obsGe := fun _a _b => Nat.decLe _ _

instance : IsTotal ObservationRow obsGe :=
  ⟨fun a b => (Nat.le_total b.created_at_epoch a.created_at_epoch)⟩

instance : IsTrans ObservationRow obsGe :=
  ⟨fun _ _ _ hab hbc => Nat.le_trans hbc hab⟩

/-- `ORDER BY created_at_epoch DESC` on a result set. -/
def sortByEpochDesc (l : List ObservationRow) : List ObservationRow :=
  l.insertionSort obsGe

/-- `getRecentObservations(project, limit = 50)`. -/
def getRecentObservations (db : DB) (project : String) (limit : Nat) :
    List ObservationRow :=
  (sortByEpochDesc (db.observations.filter (fun o => o.project == project))).take limit

/-- `searchObservations(query, project = null, limit = 20)`.

The FTS5 `MATCH` operator is external to the repository (a SQLite
built-in); it is abstracted as the predicate `ftsMatch` over the indexed
row.  The triggers keep the FTS table in sync with `observations`, so the
join with `observations_fts` is the filter `ftsMatch query o` over the
observation rows.  The optional project filter is appended only when
`project` is truthy, before `ORDER BY created_at_epoch DESC LIMIT ?`. -/
def searchObservations (ftsMatch : String → ObservationRow → Bool)
    (db : DB) (query : String) (project : Option String) (limit : Nat) :
    List ObservationRow :=
  let projFilter : ObservationRow → Bool := fun o =>
    match project with
    | none => true
    | some p => if p = "" then true else o.project == p
  let filtered := db.observations.filter (fun o => ftsMatch query o && projFilter o)
  (sortByEpochDesc filtered).take limit

/-- `storeSummary(sessionId, project, summary, promptNumber = null,
discoveryTokens = 0)`: same auto-create of the session, then the INSERT
(all text fields bound as `summary.field || null`; no CHECK constraint can
fail here). -/
def storeSummary (db : DB) (sessionId project : String)
    (summary : SummaryInput) (promptNumber : Option Nat)
    (discoveryTokens : Nat) (now : Nat) : DB × StoreResult :=
  let db1 := (createSession db sessionId project "" now).1
  let row : SummaryRow :=
    { id := db1.nextSummaryId
      session_id := sessionId
      project := project
      request := jsOrNull summary.request
      investigated := jsOrNull summary.investigated
      learned := jsOrNull summary.learned
      completed := jsOrNull summary.completed
      next_steps := jsOrNull summary.next_steps
      notes := jsOrNull summary.notes
      prompt_number := promptNumber
      discovery_tokens := discoveryTokens
      created_at_epoch := now }
  let db2 := { db1 with summaries := db1.summaries ++ [row]
                        nextSummaryId := db1.nextSummaryId + 1 }
  (db2, { id := row.id, createdAtEpoch := now })

/-! ## Store invariants and helper lemmas -/

/-- The UNIQUE constraint on `sessions.session_id`. -/
def DB.wfSessions (db : DB) : Prop :=
  (db.sessions.map (·.session_id)).Nodup

instance : DecidablePred DB.wfSessions := fun db =>
  show Decidable ((db.sessions.map (·.session_id)).Nodup) from
    List.nodupDecidable _

/-- AUTOINCREMENT invariant: all stored observation ids are below the next
rowid. -/
def DB.wfObsIds (db : DB) : Prop :=
  ∀ o ∈ db.observations, o.id < db.nextObservationId

instance : DecidablePred DB.wfObsIds := fun db =>
  List.decidableBAll _ db.observations

theorem find?_update_sessions (l : List SessionRow) (sid : String)
    (u : SessionRow → SessionRow) (hu : ∀ r, (u r).session_id = r.session_id) :
    (l.map (fun r => if r.session_id == sid then u r else r)).find?
        (fun r => r.session_id == sid)
      = (l.find? (fun r => r.session_id == sid)).map
          (fun r => if r.session_id == sid then u r else r) := by
  induction l with
  | nil => rfl
  | cons a t ih =>
    by_cases h : a.session_id = sid
    · rw [List.map_cons, if_pos (by simp [h]),
        List.find?_cons_of_pos _ (by simp [hu, h]),
        List.find?_cons_of_pos _ (by simp [h])]
      simp [h]
    · rw [List.map_cons, if_neg (by simp [h]),
        List.find?_cons_of_neg _ (by simp [h]),
        List.find?_cons_of_neg _ (by simp [h])]
      exact ih

theorem filter_update_sessions (l : List SessionRow) (sid : String)
    (u : SessionRow → SessionRow) (hu : ∀ r, (u r).session_id = r.session_id) :
    (l.map (fun r => if r.session_id == sid then u r else r)).filter
        (fun r => r.session_id == sid)
      = (l.filter (fun r => r.session_id == sid)).map
          (fun r => if r.session_id == sid then u r else r) := by
  induction l with
  | nil => rfl
  | cons a t ih =>
    by_cases h : a.session_id = sid
    · rw [List.map_cons, if_pos (by simp [h]),
        List.filter_cons_of_pos (by simp [hu, h]),
        List.filter_cons_of_pos (by simp [h])]
      simp only [List.map_cons, if_pos (show (a.session_id == sid) = true by simp [h])]
      rw [ih]
    · rw [List.map_cons, if_neg (by simp [h]),
        List.filter_cons_of_neg (by simp [h]),
        List.filter_cons_of_neg (by simp [h])]
      exact ih

theorem sids_update_sessions (l : List SessionRow) (sid : String)
    (u : SessionRow → SessionRow) (hu : ∀ r, (u r).session_id = r.session_id) :
    (l.map (fun r => if r.session_id == sid then u r else r)).map (·.session_id)
      = l.map (·.session_id) := by
  induction l with
  | nil => rfl
  | cons a t ih =>
    by_cases h : a.session_id = sid
    · simp only [List.map_cons, if_pos (show (a.session_id == sid) = true by simp [h]),
        hu, ih]
    · simp only [List.map_cons, if_neg (show ¬(a.session_id == sid) = true by simp [h]), ih]

theorem find?_eq_none_of_all_ne (l : List SessionRow) (sid : String)
    (h : ∀ r ∈ l, ¬ r.session_id = sid) :
    l.find? (fun r => r.session_id == sid) = none := by
  rw [List.find?_eq_none]
  intro r hr
  simp [h r hr]

/-- The row inserted by `createSession` when the session id is new. -/
def newSessionRow (db : DB) (sid project userPrompt : String) (now : Nat) : SessionRow :=
  { id := db.nextSessionId, session_id := sid, project := project
    user_prompt := some userPrompt, prompt_counter := 0
    started_at_epoch := now, completed_at_epoch := none, status := "active" }

theorem createSession_of_not_mem (db : DB) (sid p u : String) (t : Nat)
    (h : ∀ r ∈ db.sessions, ¬ r.session_id = sid) :
    createSession db sid p u t
      = ({ db with sessions := db.sessions ++ [newSessionRow db sid p u t]
                   nextSessionId := db.nextSessionId + 1 }, some db.nextSessionId) := by
  have hany : db.sessions.any (fun r => r.session_id == sid) = false := by
    rw [List.any_eq_false]
    intro r hr
    simp [h r hr]
  rw [createSession, if_neg (by simp [hany])]
  have hfind : (db.sessions ++ [newSessionRow db sid p u t]).find?
      (fun r => r.session_id == sid) = some (newSessionRow db sid p u t) := by
    rw [List.find?_append, find?_eq_none_of_all_ne _ _ h]
    simp [newSessionRow]
  simp only [newSessionRow] at hfind
  simp [hfind, newSessionRow]

theorem createSession_snd (db : DB) (sid p u : String) (t : Nat) :
    (createSession db sid p u t).2
      = (getSession (createSession db sid p u t).1 sid).map (·.id) := by
  by_cases h : db.sessions.any (fun r => r.session_id == sid) = true
  · by_cases hp : p = "" <;> simp [createSession, getSession, h, hp]
  · simp [createSession, getSession, h]

theorem getSession_createSession_exists (db : DB) (sid p u : String) (t : Nat)
    (h : db.sessions.any (fun r => r.session_id == sid) = true) :
    getSession (createSession db sid p u t).1 sid
      = (getSession db sid).map (fun r =>
          if p ≠ "" then { r with project := p, user_prompt := some u } else r) := by
  obtain ⟨s0, hs0⟩ :=
    Option.isSome_iff_exists.mp (List.find?_isSome.mpr (List.any_eq_true.mp h))
  have hps0 : (s0.session_id == sid) = true := by
    have := List.find?_some hs0
    simpa using this
  by_cases hp : p = ""
  · subst hp
    simp [createSession, getSession, h, hs0]
  · have hupd := find?_update_sessions db.sessions sid
      (fun r => { r with project := p, user_prompt := some u }) (fun r => rfl)
    have hg : getSession (createSession db sid p u t).1 sid
        = (db.sessions.map (fun r => if r.session_id == sid then
            { r with project := p, user_prompt := some u } else r)).find?
          (fun r => r.session_id == sid) := by
      unfold createSession
      rw [if_pos h, if_pos hp]
      rfl
    rw [hg, hupd, getSession, hs0]
    simp only [Option.map_some', if_pos hps0, if_pos hp]

theorem getSession_createSession_post (db : DB) (sid p u : String) (t : Nat) :
    ∃ s, getSession (createSession db sid p u t).1 sid = some s ∧ s.session_id = sid := by
  by_cases h : db.sessions.any (fun r => r.session_id == sid) = true
  · obtain ⟨s0, hs0⟩ :=
      Option.isSome_iff_exists.mp (List.find?_isSome.mpr (List.any_eq_true.mp h))
    have hps0 : (s0.session_id == sid) = true := by
      have := List.find?_some hs0
      simpa using this
    rw [getSession_createSession_exists db sid p u t h]
    rw [getSession, hs0]
    refine ⟨_, rfl, ?_⟩
    by_cases hp : p = "" <;> simp [hp] <;> simpa using hps0
  · have hne : ∀ r ∈ db.sessions, ¬ r.session_id = sid := by
      intro r hr hcontra
      exact absurd (List.any_eq_true.mpr ⟨r, hr, by simp [hcontra]⟩) h
    rw [createSession_of_not_mem db sid p u t hne]
    refine ⟨newSessionRow db sid p u t, ?_, rfl⟩
    show (db.sessions ++ [newSessionRow db sid p u t]).find?
        (fun r => r.session_id == sid) = _
    rw [List.find?_append, find?_eq_none_of_all_ne _ _ hne]
    simp [newSessionRow]

theorem createSession_id_preserved (db : DB) (sid p u : String) (t : Nat)
    (h : db.sessions.any (fun r => r.session_id == sid) = true) :
    (getSession (createSession db sid p u t).1 sid).map (·.id)
      = (getSession db sid).map (·.id) := by
  rw [getSession_createSession_exists db sid p u t h]
  cases getSession db sid with
  | none => rfl
  | some s =>
    by_cases hp : p = "" <;> simp [hp]

/-- Number of session rows carrying a given session id. -/
def sessionCount (db : DB) (sid : String) : Nat :=
  (db.sessions.filter (fun r => r.session_id == sid)).length

theorem map_update_sessions_id (l : List SessionRow) (sid : String)
    (u : SessionRow → SessionRow) (h : ∀ r ∈ l, ¬ r.session_id = sid) :
    l.map (fun r => if r.session_id == sid then u r else r) = l := by
  induction l with
  | nil => rfl
  | cons a t ih =>
    rw [List.map_cons, if_neg (by simp [h a (by simp)]),
      ih (fun r hr => h r (List.mem_cons_of_mem a hr))]

theorem sessionCount_le_one (db : DB) (hwf : db.wfSessions) (sid : String) :
    sessionCount db sid ≤ 1 := by
  have hsub : List.Sublist
      ((db.sessions.filter (fun r => r.session_id == sid)).map (·.session_id))
      (db.sessions.map (·.session_id)) :=
    (List.filter_sublist _).map _
  have hnodup : ((db.sessions.filter (fun r => r.session_id == sid)).map
      (·.session_id)).Nodup := hwf.sublist hsub
  have hrep : (db.sessions.filter (fun r => r.session_id == sid)).map (·.session_id)
      = List.replicate (sessionCount db sid) sid := by
    rw [List.eq_replicate_iff]
    refine ⟨by simp [sessionCount], ?_⟩
    intro b hb
    obtain ⟨r, hr, hrb⟩ := List.mem_map.mp hb
    have hpr := List.of_mem_filter hr
    rw [← hrb]
    simpa using hpr
  rw [hrep, List.nodup_replicate] at hnodup
  exact hnodup

theorem sessionCount_pos_of_any (db : DB) (sid : String)
    (h : db.sessions.any (fun r => r.session_id == sid) = true) :
    1 ≤ sessionCount db sid := by
  obtain ⟨r, hr, hp⟩ := List.any_eq_true.mp h
  have hmem : r ∈ db.sessions.filter (fun r => r.session_id == sid) :=
    List.mem_filter.mpr ⟨hr, hp⟩
  have := List.length_pos.mpr (List.ne_nil_of_mem hmem)
  simpa [sessionCount] using this

theorem sessionCount_createSession_eq_one (db : DB) (hwf : db.wfSessions)
    (sid p u : String) (t : Nat) :
    sessionCount (createSession db sid p u t).1 sid = 1 := by
  by_cases h : db.sessions.any (fun r => r.session_id == sid) = true
  · have hcnt : sessionCount db sid = 1 :=
      Nat.le_antisymm (sessionCount_le_one db hwf sid) (sessionCount_pos_of_any db sid h)
    by_cases hp : p = ""
    · have heq : (createSession db sid p u t).1 = db := by
        unfold createSession
        rw [if_pos h, if_neg (by simp [hp])]
      rw [heq, hcnt]
    · have hsess : (createSession db sid p u t).1.sessions
          = db.sessions.map (fun r => if r.session_id == sid then
              { r with project := p, user_prompt := some u } else r) := by
        unfold createSession
        rw [if_pos h, if_pos hp]
      have hfilter := filter_update_sessions db.sessions sid
        (fun r => { r with project := p, user_prompt := some u }) (fun r => rfl)
      simp only [sessionCount, hsess, hfilter, List.length_map] at *
      exact hcnt
  · have hne : ∀ r ∈ db.sessions, ¬ r.session_id = sid := by
      intro r hr hcontra
      exact absurd (List.any_eq_true.mpr ⟨r, hr, by simp [hcontra]⟩) h
    rw [createSession_of_not_mem db sid p u t hne]
    have hnil : db.sessions.filter (fun r => r.session_id == sid) = [] := by
      rw [List.filter_eq_nil_iff]
      intro r hr
      simp [hne r hr]
    simp [sessionCount, List.filter_append, hnil, newSessionRow]

theorem wfSessions_createSession (db : DB) (hwf : db.wfSessions)
    (sid p u : String) (t : Nat) :
    (createSession db sid p u t).1.wfSessions := by
  by_cases h : db.sessions.any (fun r => r.session_id == sid) = true
  · by_cases hp : p = ""
    · have heq : (createSession db sid p u t).1 = db := by
        unfold createSession
        rw [if_pos h, if_neg (by simp [hp])]
      rw [heq]
      exact hwf
    · have hsess : (createSession db sid p u t).1.sessions
          = db.sessions.map (fun r => if r.session_id == sid then
              { r with project := p, user_prompt := some u } else r) := by
        unfold createSession
        rw [if_pos h, if_pos hp]
      have hsids := sids_update_sessions db.sessions sid
        (fun r => { r with project := p, user_prompt := some u }) (fun r => rfl)
      show ((createSession db sid p u t).1.sessions.map (·.session_id)).Nodup
      rw [hsess, hsids]
      exact hwf
  · have hne : ∀ r ∈ db.sessions, ¬ r.session_id = sid := by
      intro r hr hcontra
      exact absurd (List.any_eq_true.mpr ⟨r, hr, by simp [hcontra]⟩) h
    rw [createSession_of_not_mem db sid p u t hne]
    show ((db.sessions ++ [newSessionRow db sid p u t]).map (·.session_id)).Nodup
    rw [List.map_append, List.nodup_append]
    refine ⟨hwf, by simp, ?_⟩
    intro a ha hb
    simp only [newSessionRow, List.map_cons, List.map_nil, List.mem_singleton] at hb
    obtain ⟨r, hr, hra⟩ := List.mem_map.mp ha
    exact hne r hr (by rw [hra, hb])

theorem any_createSession_post (db : DB) (sid p u : String) (t : Nat) :
    (createSession db sid p u t).1.sessions.any (fun r => r.session_id == sid) = true := by
  obtain ⟨s, hs, hsid⟩ := getSession_createSession_post db sid p u t
  rw [getSession] at hs
  have hmem := List.mem_of_find?_eq_some hs
  exact List.any_eq_true.mpr ⟨s, hmem, by simp [hsid]⟩

theorem incrementPromptCounter_no_session (db : DB) (sid : String)
    (h : ∀ r ∈ db.sessions, ¬ r.session_id = sid) :
    incrementPromptCounter db sid = (db, 1) := by
  unfold incrementPromptCounter
  rw [map_update_sessions_id db.sessions sid _ h]
  dsimp only
  rw [find?_eq_none_of_all_ne db.sessions sid h]

theorem incrementPromptCounter_unique (db : DB) (l1 : List SessionRow)
    (row : SessionRow) (sid : String)
    (hdb : db.sessions = l1 ++ [row])
    (h1 : ∀ r ∈ l1, ¬ r.session_id = sid)
    (hrow : row.session_id = sid) :
    incrementPromptCounter db sid
      = ({ db with sessions :=
            l1 ++ [{ row with prompt_counter := row.prompt_counter + 1 }] },
         row.prompt_counter + 1) := by
  unfold incrementPromptCounter
  rw [hdb, List.map_append, map_update_sessions_id l1 sid _ h1]
  rw [List.map_cons, List.map_nil, if_pos (by simp [hrow])]
  dsimp only
  rw [List.find?_append, find?_eq_none_of_all_ne l1 sid h1]
  simp [hrow]

theorem createSession_empty_project_exists (db : DB) (sid u : String) (t : Nat)
    (h : db.sessions.any (fun r => r.session_id == sid) = true) :
    (createSession db sid "" u t).1 = db := by
  unfold createSession
  rw [if_pos h, if_neg (by simp)]

theorem createSession_preserves (db : DB) (sid p u : String) (t : Nat) :
    (createSession db sid p u t).1.observations = db.observations
    ∧ (createSession db sid p u t).1.summaries = db.summaries
    ∧ (createSession db sid p u t).1.nextObservationId = db.nextObservationId
    ∧ (createSession db sid p u t).1.nextSummaryId = db.nextSummaryId := by
  unfold createSession
  by_cases h : db.sessions.any (fun r => r.session_id == sid) = true
  · by_cases hp : p = "" <;> simp [h, hp]
  · simp [h]

/-- The observation row inserted by a successful `storeObservation`. -/
def storedObsRow (db : DB) (sid project : String) (input : ObservationInput)
    (pn : Option Nat) (dt now : Nat) : ObservationRow :=
  { id := db.nextObservationId
    session_id := sid
    project := project
    type := jsOrStr input.type "change"
    title := jsOrNull input.title
    subtitle := jsOrNull input.subtitle
    facts := some (encodeJsonArray (input.facts.getD []))
    narrative := jsOrNull input.narrative
    concepts := some (encodeJsonArray (input.concepts.getD []))
    files_read := some (encodeJsonArray (input.files_read.getD []))
    files_modified := some (encodeJsonArray (input.files_modified.getD []))
    prompt_number := pn
    discovery_tokens := dt
    created_at_epoch := now }

theorem storeObservation_ok (db : DB) (sid p : String) (input : ObservationInput)
    (pn : Option Nat) (dt now : Nat)
    (ht : checkObsType (jsOrStr input.type "change") = true) :
    (storeObservation db sid p input pn dt now).1.observations
        = db.observations ++ [storedObsRow db sid p input pn dt now]
    ∧ (storeObservation db sid p input pn dt now).2
        = Except.ok ⟨db.nextObservationId, now⟩
    ∧ (storeObservation db sid p input pn dt now).1.sessions
        = (createSession db sid p "" now).1.sessions
    ∧ (storeObservation db sid p input pn dt now).1.nextObservationId
        = db.nextObservationId + 1 := by
  obtain ⟨hobs, _hsum, hnext, _⟩ := createSession_preserves db sid p "" now
  unfold storeObservation
  rw [if_pos ht]
  dsimp only
  rw [hobs, hnext]
  exact ⟨rfl, rfl, rfl, rfl⟩

theorem storeObservation_checkFail (db : DB) (sid p : String)
    (input : ObservationInput) (pn : Option Nat) (dt now : Nat)
    (ht : checkObsType (jsOrStr input.type "change") = false) :
    (storeObservation db sid p input pn dt now).2
        = Except.error "CHECK constraint failed: observations"
    ∧ (storeObservation db sid p input pn dt now).1.observations
        = db.observations := by
  obtain ⟨hobs, _, _, _⟩ := createSession_preserves db sid p "" now
  unfold storeObservation
  rw [if_neg (by simp [ht])]
  exact ⟨rfl, hobs⟩

theorem getObservationById_storeObservation (db : DB) (hfresh : db.wfObsIds)
    (sid p : String) (input : ObservationInput) (pn : Option Nat) (dt now : Nat)
    (ht : checkObsType (jsOrStr input.type "change") = true) :
    getObservationById (storeObservation db sid p input pn dt now).1
        db.nextObservationId
      = some (storedObsRow db sid p input pn dt now) := by
  obtain ⟨hobs, _, _, _⟩ := storeObservation_ok db sid p input pn dt now ht
  rw [getObservationById, hobs, List.find?_append]
  have hnone : db.observations.find? (fun o => o.id == db.nextObservationId) = none := by
    rw [List.find?_eq_none]
    intro o ho
    simp [Nat.ne_of_lt (hfresh o ho)]
  rw [hnone]
  simp [storedObsRow]

/-- The summary row inserted by `storeSummary`. -/
def storedSummaryRow (db : DB) (sid project : String) (s : SummaryInput)
    (pn : Option Nat) (dt now : Nat) : SummaryRow :=
  { id := db.nextSummaryId
    session_id := sid
    project := project
    request := jsOrNull s.request
    investigated := jsOrNull s.investigated
    learned := jsOrNull s.learned
    completed := jsOrNull s.completed
    next_steps := jsOrNull s.next_steps
    notes := jsOrNull s.notes
    prompt_number := pn
    discovery_tokens := dt
    created_at_epoch := now }

theorem storeSummary_out (db : DB) (sid p : String) (s : SummaryInput)
    (pn : Option Nat) (dt now : Nat) :
    (storeSummary db sid p s pn dt now).1.summaries
        = db.summaries ++ [storedSummaryRow db sid p s pn dt now]
    ∧ (storeSummary db sid p s pn dt now).2 = ⟨db.nextSummaryId, now⟩
    ∧ (storeSummary db sid p s pn dt now).1.sessions
        = (createSession db sid p "" now).1.sessions := by
  obtain ⟨_hobs, hsum, _, hnextS⟩ := createSession_preserves db sid p "" now
  unfold storeSummary
  dsimp only
  rw [hsum, hnextS]
  exact ⟨rfl, rfl, rfl⟩

/-! ## Context generator (src/services/context-generator.js) -/

/-- `parseJsonArray(str)`: `[]` for a falsy argument, the parsed value when
it is a JSON array (of strings in every stored row), `[]` otherwise
(non-arrays and parse errors). -/
def parseJsonArray (str : Option String) : List String :=
  match str with
  | none => []
  | some s =>
    if s = "" then []
    else
      match decodeJsonArray s with
      | some l => l
      | none => []

/-- `extractFirstFile(filesJson, cwd = '')`. -/
def extractFirstFile (filesJson : Option String) (cwd : String) : String :=
  let files := parseJsonArray filesJson
  match files with
  | [] => "(no file)"
  | f0 :: _ =>
    let file :=
      if cwd ≠ "" ∧ jsStartsWith f0 cwd = true then
        jsSubstringFrom f0 (jsLength cwd + 1)
      else f0
    if file = "" then "(no file)" else file

/-- The file column of one per-day table row in `generateContext`
(line `const file = extractFirstFile(obs.files_modified);` - no working
directory is passed there, so `cwd` is the default `''`). -/
def rowFileColumn (o : ObservationRow) : String :=
  extractFirstFile o.files_modified ""

/-- The per-observation size used by the context-economics block:
`(obs.title?.length || 0) + (obs.subtitle?.length || 0) +
(obs.narrative?.length || 0) + (obs.facts?.length || 0)`. -/
def obsDisplaySize (o : ObservationRow) : Nat :=
  (o.title.map jsLength).getD 0 + (o.subtitle.map jsLength).getD 0 +
    (o.narrative.map jsLength).getD 0 + (o.facts.map jsLength).getD 0

/-- `totalReadTokens`: the "Loading" estimate printed by
`generateContext`, a `reduce` that adds `Math.ceil(size / 4)` per
observation. -/
def totalReadTokens (observations : List ObservationRow) : Nat :=
  observations.foldl (fun sum o => sum + (obsDisplaySize o + 3) / 4) 0

/-- Modelled from the spec's words (for comparison with
`totalReadTokens`): `ceil(sum(len(title)+len(subtitle)+len(narrative)+
len(facts)) / 4)` computed as a single ceiling over the total. -/
def specLoadingTokens (observations : List ObservationRow) : Nat :=
  ((observations.map obsDisplaySize).sum + 3) / 4

/-! ## Worker service (src/services/worker-service.js) -/

/-- Models Node's `path.basename` (posix) on the paths fed to it:
strip trailing separators, then keep the part after the last separator. -/
def basename (p : String) : String :=
  let cs := p.data
  let stripped := (cs.reverse.dropWhile (fun c => c == '/')).reverse
  if stripped = [] then (if cs = [] then "" else "/")
  else ⟨(stripped.reverse.takeWhile (fun c => !(c == '/'))).reverse⟩

/-- The fields of `tool_input` probed by `createSimpleObservation`
(each possibly `undefined`). -/
structure ToolInput where
  file_path : Option String
  target_file : Option String
  command : Option String
  deriving Repr, DecidableEq

/-- A raw tool tuple as received by the observations endpoint
(`tool_name`/`tool_input` may be `undefined`; `tool_response` is never
read by `createSimpleObservation`). -/
structure RawObs where
  tool_name : Option String
  tool_input : Option ToolInput
  deriving Repr, DecidableEq

/-- Models JS `obs.tool_input?.field` (an optional chain producing a
possibly-undefined string). -/
def toolInputField (raw : RawObs) (f : ToolInput → Option String) : Option String :=
  match raw.tool_input with
  | none => none
  | some ti => f ti

/-- `skipTools.some(t => tool_name?.includes(t))` with
`skipTools = ['Read', 'LS', 'Glob']`. -/
def skipCheck (raw : RawObs) : Bool :=
  ["Read", "LS", "Glob"].any (fun t =>
    match raw.tool_name with
    | some n => jsIncludes n t
    | none => false)

/-- `WorkerService.createSimpleObservation(obs)`: returns `null` for
skipped tools, otherwise the simplified observation record. -/
def createSimpleObservation (raw : RawObs) : Option ObservationInput :=
  if skipCheck raw then none
  else
    -- the type if-chain assigns 'change' in every branch
    let type0 := "change"
    let fm0 : List String :=
      match toolInputField raw (·.file_path) with
      | some fp => if fp = "" then [] else [fp]
      | none => []
    let fm1 : List String := fm0 ++
      (match toolInputField raw (·.target_file) with
       | some tf => if tf = "" then [] else [tf]
       | none => [])
    let fr : List String := []
    let title0 := jsOrStr raw.tool_name "Tool execution"
    let title1 :=
      if jsTruthy (toolInputField raw (·.file_path)) then
        "Modified " ++ basename ((toolInputField raw (·.file_path)).getD "")
      else if jsTruthy (toolInputField raw (·.command)) then
        "Executed: " ++ jsTake ((toolInputField raw (·.command)).getD "") 40
      else title0
    some {
      type := some type0
      title := some title1
      subtitle := some ("Tool: " ++ (match raw.tool_name with
        | some n => n
        | none => "undefined"))
      facts := some []
      narrative := none
      concepts := some ["what-changed"]
      files_read := some fr
      files_modified := some fm1 }

/-! ## Claim theorems -/

/-- Observation input whose `type` is the unknown non-empty string "foo". -/
def fooInput : ObservationInput :=
  { type := some "foo", title := none, subtitle := none, facts := none
    narrative := none, concepts := none, files_read := none, files_modified := none }

/-- C1, counterexample: storing an observation whose type is the non-empty
non-enum string "foo" does NOT succeed with type coerced to "change" - the
INSERT violates the schema CHECK constraint, the call raises, and no
observation row is stored at all. -/
theorem c1_counterexample :
    (storeObservation emptyDB "s1" "proj" fooInput none 0 0).2
        = Except.error "CHECK constraint failed: observations"
    ∧ (storeObservation emptyDB "s1" "proj" fooInput none 0 0).1.observations = [] := by
  exact ⟨rfl, rfl⟩

/-- C1, amended: for every observation whose `type` field is a non-empty
string outside the six enum values, `storeObservation` binds that string
unchanged (`observation.type || 'change'` only replaces falsy values), the
schema CHECK constraint rejects the INSERT, the call raises an error, and no
observation row is stored; the coercion of unknown types to "change"
happens in `parseObservations`, before storage, not in `storeObservation`. -/
theorem c1_storeObservation_invalid_type_errors (db : DB) (sid p : String)
    (input : ObservationInput) (pn : Option Nat) (dt now : Nat) (ty : String)
    (hty : input.type = some ty) (hne : ty ≠ "")
    (hinvalid : checkObsType ty = false) :
    (storeObservation db sid p input pn dt now).2
        = Except.error "CHECK constraint failed: observations"
    ∧ (storeObservation db sid p input pn dt now).1.observations
        = db.observations := by
  have h : jsOrStr input.type "change" = ty := by
    rw [hty]
    simp [jsOrStr, hne]
  exact storeObservation_checkFail db sid p input pn dt now (by rw [h]; exact hinvalid)

/-- C1, witness for the amended theorem at the concrete input "foo". -/
theorem c1_witness :
    (storeObservation emptyDB "s2" "proj" fooInput none 0 5).2
        = Except.error "CHECK constraint failed: observations"
    ∧ (storeObservation emptyDB "s2" "proj" fooInput none 0 5).1.observations
        = emptyDB.observations :=
  c1_storeObservation_invalid_type_errors emptyDB "s2" "proj" fooInput none 0 5
    "foo" rfl (by decide) (by rfl)

/-- C2, counterexample: after `createSession("s1","p1","hello")`, a second
`createSession("s1","p2","")` with a non-empty project and an empty prompt
DOES overwrite the existing non-empty `user_prompt` "hello" with the empty
string, contradicting the claim that empty supplied values never overwrite
non-empty existing ones. -/
theorem c2_counterexample :
    (getSession (createSession (createSession emptyDB "s1" "p1" "hello" 0).1
        "s1" "p2" "" 1).1 "s1").map (·.user_prompt)
      = some (some "")
    ∧ (getSession (createSession (createSession emptyDB "s1" "p1" "hello" 0).1
        "s1" "p2" "" 1).1 "s1").map (·.user_prompt)
      ≠ some (some "hello") := by
  exact ⟨rfl, by decide⟩

/-- C2, amended: calling `createSession` twice sequentially with the same id
yields exactly one session row and the second call returns the same internal
id as the first.  When the second call's supplied project is empty, nothing
at all is updated (so existing values survive); when it is non-empty, BOTH
`project` and `user_prompt` are overwritten with the supplied values -
including overwriting a non-empty stored prompt with an empty one. -/
theorem c2_createSession_idempotent (db : DB) (hwf : db.wfSessions)
    (sid p1 u1 p2 u2 : String) (t1 t2 : Nat) :
    sessionCount (createSession (createSession db sid p1 u1 t1).1 sid p2 u2 t2).1 sid = 1
    ∧ (createSession (createSession db sid p1 u1 t1).1 sid p2 u2 t2).2
        = (createSession db sid p1 u1 t1).2
    ∧ (p2 = "" → (createSession (createSession db sid p1 u1 t1).1 sid p2 u2 t2).1
        = (createSession db sid p1 u1 t1).1)
    ∧ (p2 ≠ "" → ∃ s,
        getSession (createSession (createSession db sid p1 u1 t1).1 sid p2 u2 t2).1 sid
          = some s ∧ s.project = p2 ∧ s.user_prompt = some u2) := by
  have hwf1 : (createSession db sid p1 u1 t1).1.wfSessions :=
    wfSessions_createSession db hwf sid p1 u1 t1
  have hany1 : (createSession db sid p1 u1 t1).1.sessions.any
      (fun r => r.session_id == sid) = true :=
    any_createSession_post db sid p1 u1 t1
  refine ⟨?_, ?_, ?_, ?_⟩
  · exact sessionCount_createSession_eq_one _ hwf1 sid p2 u2 t2
  · rw [createSession_snd, createSession_id_preserved _ sid p2 u2 t2 hany1,
      ← createSession_snd]
  · intro hp2
    subst hp2
    exact createSession_empty_project_exists _ sid u2 t2 hany1
  · intro hp2
    obtain ⟨s1, hs1, hsid1⟩ := getSession_createSession_post db sid p1 u1 t1
    rw [getSession_createSession_exists _ sid p2 u2 t2 hany1, hs1]
    exact ⟨_, rfl, by simp [hp2], by simp [hp2]⟩

/-- C2, witness: the amended theorem instantiated on the empty database with
concrete session data. -/
theorem c2_witness :
    sessionCount (createSession (createSession emptyDB "w2" "pa" "ua" 3).1
        "w2" "pb" "ub" 4).1 "w2" = 1
    ∧ (createSession (createSession emptyDB "w2" "pa" "ua" 3).1 "w2" "pb" "ub" 4).2
        = (createSession emptyDB "w2" "pa" "ua" 3).2
    ∧ ("pb" = "" → (createSession (createSession emptyDB "w2" "pa" "ua" 3).1
        "w2" "pb" "ub" 4).1 = (createSession emptyDB "w2" "pa" "ua" 3).1)
    ∧ ("pb" ≠ "" → ∃ s,
        getSession (createSession (createSession emptyDB "w2" "pa" "ua" 3).1
          "w2" "pb" "ub" 4).1 "w2"
          = some s ∧ s.project = "pb" ∧ s.user_prompt = some "ub") :=
  c2_createSession_idempotent emptyDB (by decide) "w2" "pa" "ua" "pb" "ub" 3 4

/-- Observation input used for the C3 counterexample: title "abc", nothing else. -/
def c3Input : ObservationInput :=
  { type := none, title := some "abc", subtitle := none, facts := none
    narrative := none, concepts := none, files_read := none, files_modified := none }

/-- Database with two stored observations of display size 5 each. -/
def c3DB : DB :=
  (storeObservation (storeObservation emptyDB "s" "p" c3Input none 0 10).1
    "s" "p" c3Input none 0 20).1

/-- C3, counterexample: for the fetched set of two observations of display
size 5 each (title "abc" + serialized empty facts "[]"), the printed
"Loading" estimate is `ceil(5/4) + ceil(5/4) = 4`, while a single ceiling
over the total would give `ceil(10/4) = 3` - the code takes a ceiling per
observation and sums, it does not take one ceiling of the sum. -/
theorem c3_counterexample :
    totalReadTokens (getRecentObservations c3DB "p" 50) = 4
    ∧ specLoadingTokens (getRecentObservations c3DB "p" 50) = 3
    ∧ totalReadTokens (getRecentObservations c3DB "p" 50)
        ≠ specLoadingTokens (getRecentObservations c3DB "p" 50) := by
  exact ⟨rfl, rfl, by decide⟩

/-- C3, amended: the "Loading" token estimate printed in the
context-economics block equals the SUM over all fetched observations of
`ceil((len(title)+len(subtitle)+len(narrative)+len(facts)) / 4)` - the
ceiling is applied per observation and the results are added, not applied
once to the total. -/
theorem c3_loading_tokens_per_observation (db : DB) (project : String) (limit : Nat) :
    totalReadTokens (getRecentObservations db project limit)
      = ((getRecentObservations db project limit).map
          (fun o => (obsDisplaySize o + 3) / 4)).sum := by
  have haux : ∀ (l : List ObservationRow) (acc : Nat),
      l.foldl (fun sum o => sum + (obsDisplaySize o + 3) / 4) acc
        = acc + (l.map (fun o => (obsDisplaySize o + 3) / 4)).sum := by
    intro l
    induction l with
    | nil => simp
    | cons a t ih =>
      intro acc
      simp only [List.foldl_cons, List.map_cons, List.sum_cons, ih]
      omega
  simpa [totalReadTokens] using haux (getRecentObservations db project limit) 0

/-- C4: on a freshly created session, three sequential
`incrementPromptCounter` calls return 1, 2, 3; and on a session id with no
session row at all, the call leaves the database unchanged and returns the
fallback value 1 instead of failing. -/
theorem c4_incrementPromptCounter (db : DB) (sid p u : String) (t : Nat)
    (hfresh : ∀ r ∈ db.sessions, ¬ r.session_id = sid) :
    ((incrementPromptCounter (createSession db sid p u t).1 sid).2 = 1
      ∧ (incrementPromptCounter
          (incrementPromptCounter (createSession db sid p u t).1 sid).1 sid).2 = 2
      ∧ (incrementPromptCounter (incrementPromptCounter
          (incrementPromptCounter (createSession db sid p u t).1 sid).1 sid).1 sid).2 = 3)
    ∧ (∀ db' : DB, ∀ sid' : String, (∀ r ∈ db'.sessions, ¬ r.session_id = sid') →
        incrementPromptCounter db' sid' = (db', 1)) := by
  constructor
  · have hstep : ∀ (d : DB) (c : Nat),
        d.sessions = db.sessions ++ [{ newSessionRow db sid p u t with prompt_counter := c }] →
        incrementPromptCounter d sid
          = ({ d with sessions :=
                db.sessions ++ [{ newSessionRow db sid p u t with prompt_counter := c + 1 }] },
             c + 1) := by
      intro d c hd
      exact incrementPromptCounter_unique d db.sessions
        ({ newSessionRow db sid p u t with prompt_counter := c }) sid hd hfresh rfl
    have h0 : (createSession db sid p u t).1.sessions
        = db.sessions ++ [{ newSessionRow db sid p u t with prompt_counter := 0 }] := by
      rw [createSession_of_not_mem db sid p u t hfresh]
      rfl
    rw [hstep _ 0 h0]
    rw [hstep _ 1 rfl]
    rw [hstep _ 2 rfl]
    exact ⟨rfl, rfl, rfl⟩
  · intro db' sid' h
    exact incrementPromptCounter_no_session db' sid' h

/-- C4, witness: the concrete chain on the empty database. -/
theorem c4_witness :
    ((incrementPromptCounter (createSession emptyDB "s4" "p" "u" 0).1 "s4").2 = 1
      ∧ (incrementPromptCounter
          (incrementPromptCounter (createSession emptyDB "s4" "p" "u" 0).1 "s4").1 "s4").2 = 2
      ∧ (incrementPromptCounter (incrementPromptCounter
          (incrementPromptCounter (createSession emptyDB "s4" "p" "u" 0).1 "s4").1 "s4").1 "s4").2 = 3)
    ∧ (∀ db' : DB, ∀ sid' : String, (∀ r ∈ db'.sessions, ¬ r.session_id = sid') →
        incrementPromptCounter db' sid' = (db', 1)) :=
  c4_incrementPromptCounter emptyDB "s4" "p" "u" 0 (by decide)

/-- C5: a successful `storeObservation` always stores all four array-valued
fields as serialized JSON arrays (present, never NULL), and fetching the row
back by the returned id and deserializing yields exactly the stored
sequences, in order; fields that were not supplied come back as the empty
sequence. -/
theorem c5_array_fields_roundtrip (db : DB) (hfresh : db.wfObsIds)
    (sid p : String) (input : ObservationInput) (pn : Option Nat) (dt now : Nat)
    (ht : checkObsType (jsOrStr input.type "change") = true) :
    (storeObservation db sid p input pn dt now).2
        = Except.ok ⟨db.nextObservationId, now⟩
    ∧ ∃ row, getObservationById (storeObservation db sid p input pn dt now).1
          db.nextObservationId = some row
        ∧ row.facts.isSome ∧ row.concepts.isSome
        ∧ row.files_read.isSome ∧ row.files_modified.isSome
        ∧ (row.facts.map decodeJsonArray) = some (some (input.facts.getD []))
        ∧ (row.concepts.map decodeJsonArray) = some (some (input.concepts.getD []))
        ∧ (row.files_read.map decodeJsonArray) = some (some (input.files_read.getD []))
        ∧ (row.files_modified.map decodeJsonArray)
            = some (some (input.files_modified.getD [])) := by
  obtain ⟨_, hok, _, _⟩ := storeObservation_ok db sid p input pn dt now ht
  refine ⟨hok, storedObsRow db sid p input pn dt now,
    getObservationById_storeObservation db hfresh sid p input pn dt now ht,
    rfl, rfl, rfl, rfl, ?_, ?_, ?_, ?_⟩ <;>
    simp [storedObsRow, decode_encode]

/-- C5, witness: storing facts=["a","b"] (and nothing else) on the empty
database and fetching by the returned id round-trips the sequence in order,
and the unsupplied array fields come back as (serialized) empty sequences. -/
theorem c5_witness :
    (storeObservation emptyDB "s5" "p"
        { type := none, title := none, subtitle := none, facts := some ["a", "b"]
          narrative := none, concepts := none, files_read := none, files_modified := none }
        none 0 7).2
      = Except.ok ⟨emptyDB.nextObservationId, 7⟩
    ∧ ∃ row, getObservationById (storeObservation emptyDB "s5" "p"
          { type := none, title := none, subtitle := none, facts := some ["a", "b"]
            narrative := none, concepts := none, files_read := none, files_modified := none }
          none 0 7).1 emptyDB.nextObservationId = some row
        ∧ row.facts.isSome ∧ row.concepts.isSome
        ∧ row.files_read.isSome ∧ row.files_modified.isSome
        ∧ (row.facts.map decodeJsonArray) = some (some ["a", "b"])
        ∧ (row.concepts.map decodeJsonArray) = some (some [])
        ∧ (row.files_read.map decodeJsonArray) = some (some [])
        ∧ (row.files_modified.map decodeJsonArray) = some (some []) :=
  c5_array_fields_roundtrip emptyDB (by decide) "s5" "p"
    { type := none, title := none, subtitle := none, facts := some ["a", "b"]
      narrative := none, concepts := none, files_read := none, files_modified := none }
    none 0 7 (by rfl)

/-- C6: with a (truthy) project filter, `searchObservations` returns only
matching observations of that project, ordered by creation epoch descending
(not by relevance), the project filter is applied before the limit (the
result length is the minimum of the limit and the number of matching rows in
that project), and every matching row of the project is returned whenever
they all fit within the limit. -/
theorem c6_searchObservations (m : String → ObservationRow → Bool) (db : DB)
    (q p : String) (limit : Nat) (hp : p ≠ "") :
    (∀ o ∈ searchObservations m db q (some p) limit, o.project = p ∧ m q o = true)
    ∧ (searchObservations m db q (some p) limit).Pairwise obsGe
    ∧ (searchObservations m db q (some p) limit).length
        = min limit (db.observations.filter (fun o => m q o && o.project == p)).length
    ∧ (∀ o ∈ db.observations, o.project = p → m q o = true →
        (db.observations.filter (fun o => m q o && o.project == p)).length ≤ limit →
        o ∈ searchObservations m db q (some p) limit) := by
  have hfeq : db.observations.filter
        (fun o => m q o && (if p = "" then true else o.project == p))
      = db.observations.filter (fun o => m q o && o.project == p) := by
    apply List.filter_congr
    intro o _
    rw [if_neg hp]
  have hdef : searchObservations m db q (some p) limit
      = (sortByEpochDesc (db.observations.filter
          (fun o => m q o && o.project == p))).take limit := by
    unfold searchObservations
    dsimp only
    rw [hfeq]
  refine ⟨?_, ?_, ?_, ?_⟩
  · intro o ho
    rw [hdef] at ho
    have hmem : o ∈ sortByEpochDesc (db.observations.filter
        (fun o => m q o && o.project == p)) := List.mem_of_mem_take ho
    have hmem2 : o ∈ db.observations.filter (fun o => m q o && o.project == p) :=
      (List.perm_insertionSort obsGe _).mem_iff.mp hmem
    have := (List.mem_filter.mp hmem2).2
    rw [Bool.and_eq_true] at this
    exact ⟨by simpa using this.2, this.1⟩
  · rw [hdef]
    have hsorted : (sortByEpochDesc (db.observations.filter
        (fun o => m q o && o.project == p))).Pairwise obsGe :=
      List.sorted_insertionSort obsGe _
    exact hsorted.sublist (List.take_sublist _ _)
  · rw [hdef, List.length_take]
    simp only [sortByEpochDesc]
    rw [(List.perm_insertionSort obsGe (db.observations.filter
      (fun o => m q o && o.project == p))).length_eq]
  · intro o ho hproj hm hlen
    rw [hdef]
    have hmem : o ∈ db.observations.filter (fun o => m q o && o.project == p) :=
      List.mem_filter.mpr ⟨ho, by simp [hm, hproj]⟩
    have hmem2 : o ∈ sortByEpochDesc (db.observations.filter
        (fun o => m q o && o.project == p)) :=
      (List.perm_insertionSort obsGe _).mem_iff.mpr hmem
    have hlen2 : (sortByEpochDesc (db.observations.filter
        (fun o => m q o && o.project == p))).length ≤ limit := by
      simp only [sortByEpochDesc]
      rw [(List.perm_insertionSort obsGe _).length_eq]
      exact hlen
    rw [List.take_of_length_le hlen2]
    exact hmem2

/-- C6 witness data: two observations containing the same matching narrative
in different projects. -/
def c6Row1 : ObservationRow :=
  { id := 1, session_id := "sA", project := "alpha", type := "change"
    title := some "t1", subtitle := none, facts := some "[]"
    narrative := some "the needle text", concepts := none, files_read := none
    files_modified := none, prompt_number := none, discovery_tokens := 0
    created_at_epoch := 10 }

def c6Row2 : ObservationRow :=
  { id := 2, session_id := "sB", project := "beta", type := "change"
    title := some "t2", subtitle := none, facts := some "[]"
    narrative := some "the needle text", concepts := none, files_read := none
    files_modified := none, prompt_number := none, discovery_tokens := 0
    created_at_epoch := 20 }

def c6DB : DB :=
  { sessions := [], observations := [c6Row1, c6Row2], summaries := []
    nextSessionId := 1, nextObservationId := 3, nextSummaryId := 1 }

/-- An FTS-match stand-in for the witness: the query occurs as a substring
of the narrative. -/
def c6Match : String → ObservationRow → Bool := fun q o =>
  jsIncludes (o.narrative.getD "") q

/-- C6, witness: the theorem instantiated on a two-project database where
the term matches one observation in each project. -/
theorem c6_witness :
    (∀ o ∈ searchObservations c6Match c6DB "needle" (some "alpha") 20,
        o.project = "alpha" ∧ c6Match "needle" o = true)
    ∧ (searchObservations c6Match c6DB "needle" (some "alpha") 20).Pairwise obsGe
    ∧ (searchObservations c6Match c6DB "needle" (some "alpha") 20).length
        = min 20 (c6DB.observations.filter
            (fun o => c6Match "needle" o && o.project == "alpha")).length
    ∧ (∀ o ∈ c6DB.observations, o.project = "alpha" → c6Match "needle" o = true →
        (c6DB.observations.filter
          (fun o => c6Match "needle" o && o.project == "alpha")).length ≤ 20 →
        o ∈ searchObservations c6Match c6DB "needle" (some "alpha") 20) :=
  c6_searchObservations c6Match c6DB "needle" "alpha" 20 (by decide)

/-- C7: `storeObservation` (when its type value passes the schema check) and
`storeSummary` both succeed on a session id with no session row: they first
auto-create the owning session with an empty prompt, so afterwards
`getSession` finds a row with that id (and empty prompt) and the freshly
stored observation/summary row carries a session token that references it. -/
theorem c7_store_auto_creates_session (db : DB) (sid p : String)
    (input : ObservationInput) (s : SummaryInput) (pn : Option Nat) (dt now : Nat)
    (hnosess : ∀ r ∈ db.sessions, ¬ r.session_id = sid)
    (ht : checkObsType (jsOrStr input.type "change") = true) :
    (∃ res, (storeObservation db sid p input pn dt now).2 = Except.ok res)
    ∧ (∃ srow, getSession (storeObservation db sid p input pn dt now).1 sid = some srow
        ∧ srow.session_id = sid ∧ srow.user_prompt = some "")
    ∧ (storeObservation db sid p input pn dt now).1.observations
        = db.observations ++ [storedObsRow db sid p input pn dt now]
    ∧ (storedObsRow db sid p input pn dt now).session_id = sid
    ∧ (∃ srow2, getSession (storeSummary db sid p s pn dt now).1 sid = some srow2
        ∧ srow2.session_id = sid ∧ srow2.user_prompt = some "")
    ∧ (storeSummary db sid p s pn dt now).1.summaries
        = db.summaries ++ [storedSummaryRow db sid p s pn dt now]
    ∧ (storedSummaryRow db sid p s pn dt now).session_id = sid := by
  obtain ⟨hobs, hok, hsess, _⟩ := storeObservation_ok db sid p input pn dt now ht
  obtain ⟨hsum, _hres, hsessS⟩ := storeSummary_out db sid p s pn dt now
  have hfind : (createSession db sid p "" now).1.sessions.find?
      (fun r => r.session_id == sid) = some (newSessionRow db sid p "" now) := by
    rw [createSession_of_not_mem db sid p "" now hnosess]
    show (db.sessions ++ [newSessionRow db sid p "" now]).find? _ = _
    rw [List.find?_append, find?_eq_none_of_all_ne _ _ hnosess]
    simp [newSessionRow]
  refine ⟨⟨_, hok⟩, ⟨newSessionRow db sid p "" now, ?_, rfl, rfl⟩, hobs, rfl,
    ⟨newSessionRow db sid p "" now, ?_, rfl, rfl⟩, hsum, rfl⟩
  · rw [getSession, hsess]
    exact hfind
  · rw [getSession, hsessS]
    exact hfind

/-- C7, witness: storing an observation and a summary on the empty database
(no session rows at all) succeeds and auto-creates the session. -/
theorem c7_witness :
    (∃ res, (storeObservation emptyDB "s7" "proj" c3Input none 0 9).2 = Except.ok res)
    ∧ (∃ srow, getSession (storeObservation emptyDB "s7" "proj" c3Input none 0 9).1 "s7"
        = some srow ∧ srow.session_id = "s7" ∧ srow.user_prompt = some "")
    ∧ (storeObservation emptyDB "s7" "proj" c3Input none 0 9).1.observations
        = emptyDB.observations ++ [storedObsRow emptyDB "s7" "proj" c3Input none 0 9]
    ∧ (storedObsRow emptyDB "s7" "proj" c3Input none 0 9).session_id = "s7"
    ∧ (∃ srow2, getSession (storeSummary emptyDB "s7" "proj"
          { request := some "r", investigated := none, learned := none
            completed := none, next_steps := none, notes := none } none 0 9).1 "s7"
        = some srow2 ∧ srow2.session_id = "s7" ∧ srow2.user_prompt = some "")
    ∧ (storeSummary emptyDB "s7" "proj"
          { request := some "r", investigated := none, learned := none
            completed := none, next_steps := none, notes := none } none 0 9).1.summaries
        = emptyDB.summaries ++ [storedSummaryRow emptyDB "s7" "proj"
          { request := some "r", investigated := none, learned := none
            completed := none, next_steps := none, notes := none } none 0 9]
    ∧ (storedSummaryRow emptyDB "s7" "proj"
          { request := some "r", investigated := none, learned := none
            completed := none, next_steps := none, notes := none } none 0 9).session_id
        = "s7" :=
  c7_store_auto_creates_session emptyDB "s7" "proj" c3Input
    { request := some "r", investigated := none, learned := none
      completed := none, next_steps := none, notes := none } none 0 9
    (by decide) (by rfl)

/-- The record produced by `createSimpleObservation` when the tool is not
skipped (straight unfolding of the non-skip branch). -/
theorem createSimpleObservation_not_skipped (raw : RawObs)
    (h : skipCheck raw = false) :
    createSimpleObservation raw = some {
      type := some "change"
      title := some (if jsTruthy (toolInputField raw (·.file_path)) then
          "Modified " ++ basename ((toolInputField raw (·.file_path)).getD "")
        else if jsTruthy (toolInputField raw (·.command)) then
          "Executed: " ++ jsTake ((toolInputField raw (·.command)).getD "") 40
        else jsOrStr raw.tool_name "Tool execution")
      subtitle := some ("Tool: " ++ (match raw.tool_name with
        | some n => n
        | none => "undefined"))
      facts := some []
      narrative := none
      concepts := some ["what-changed"]
      files_read := some []
      files_modified := some ((match toolInputField raw (·.file_path) with
          | some fp => if fp = "" then [] else [fp]
          | none => []) ++
        (match toolInputField raw (·.target_file) with
          | some tf => if tf = "" then [] else [tf]
          | none => [])) } := by
  unfold createSimpleObservation
  rw [if_neg (by simp [h])]

/-- C8: the record-observation transformation of a raw tool tuple: a tool
name containing one of the pure read/listing names (Read, LS, Glob)
produces no record; an input with a (truthy) `file_path` yields the title
"Modified <basename of file_path>" and puts that path into
`files_modified`; otherwise an input with a (truthy) `command` yields the
title "Executed: <first 40 characters of command>". -/
theorem c8_createSimpleObservation (raw : RawObs) :
    (∀ n t, raw.tool_name = some n → t ∈ (["Read", "LS", "Glob"] : List String) →
        jsIncludes n t = true → createSimpleObservation raw = none)
    ∧ (∀ ti fp, skipCheck raw = false → raw.tool_input = some ti →
        ti.file_path = some fp → fp ≠ "" →
        ∃ o, createSimpleObservation raw = some o
          ∧ o.title = some ("Modified " ++ basename fp)
          ∧ fp ∈ o.files_modified.getD [])
    ∧ (∀ ti c, skipCheck raw = false → raw.tool_input = some ti →
        jsTruthy (toolInputField raw (·.file_path)) = false →
        ti.command = some c → c ≠ "" →
        ∃ o, createSimpleObservation raw = some o
          ∧ o.title = some ("Executed: " ++ jsTake c 40)) := by
  refine ⟨?_, ?_, ?_⟩
  · intro n t hname ht hinc
    have hskip : skipCheck raw = true := by
      unfold skipCheck
      refine List.any_eq_true.mpr ⟨t, ht, ?_⟩
      rw [hname]
      exact hinc
    unfold createSimpleObservation
    rw [if_pos hskip]
  · intro ti fp hskip hti hfp hfpne
    have hfield : toolInputField raw (·.file_path) = some fp := by
      unfold toolInputField
      rw [hti]
      exact hfp
    have htruthy : jsTruthy (toolInputField raw (·.file_path)) = true := by
      rw [hfield]
      simp [jsTruthy, hfpne]
    refine ⟨_, createSimpleObservation_not_skipped raw hskip, ?_, ?_⟩
    · rw [if_pos htruthy, hfield]
      simp
    · rw [hfield]
      simp only [Option.getD_some]
      rw [if_neg hfpne]
      simp
  · intro ti c hskip hti hnofp hc hcne
    have hfield : toolInputField raw (·.command) = some c := by
      unfold toolInputField
      rw [hti]
      exact hc
    refine ⟨_, createSimpleObservation_not_skipped raw hskip, ?_⟩
    rw [if_neg (by simp [hnofp]), if_pos (by rw [hfield]; simp [jsTruthy, hcne]), hfield]
    simp

/-- Concrete raw tuples for the C8 witness. -/
def c8Read : RawObs := { tool_name := some "Read", tool_input := none }

def c8EditInput : ToolInput :=
  { file_path := some "/a/b.txt", target_file := none, command := none }

def c8Edit : RawObs := { tool_name := some "Edit", tool_input := some c8EditInput }

def c8BashInput : ToolInput :=
  { file_path := none, target_file := none, command := some "ls -la" }

def c8Bash : RawObs := { tool_name := some "Bash", tool_input := some c8BashInput }

/-- C8, witness: the three cases at concrete raw tool tuples - a skipped
"Read" tool, an "Edit" with a file_path, and a "Bash" with a command. -/
theorem c8_witness :
    createSimpleObservation c8Read = none
    ∧ (∃ o, createSimpleObservation c8Edit = some o
        ∧ o.title = some ("Modified " ++ basename "/a/b.txt")
        ∧ "/a/b.txt" ∈ o.files_modified.getD [])
    ∧ (∃ o, createSimpleObservation c8Bash = some o
        ∧ o.title = some ("Executed: " ++ jsTake "ls -la" 40)) := by
  refine ⟨?_, ?_, ?_⟩
  · exact (c8_createSimpleObservation c8Read).1 "Read" "Read" rfl (by decide) (by decide)
  · exact (c8_createSimpleObservation c8Edit).2.1 c8EditInput "/a/b.txt"
      (by decide) rfl rfl (by decide)
  · exact (c8_createSimpleObservation c8Bash).2.2 c8BashInput "ls -la"
      (by decide) rfl (by decide) rfl (by decide)

/-- C9: the file column of a context-digest table row is computed by
`extractFirstFile` on the row's `files_modified` with no working directory;
`extractFirstFile` yields the literal "(no file)" when the parsed list is
empty, otherwise the first path; and when a non-empty working directory is
supplied and the path lies inside it, the path is shown relative to that
directory. -/
theorem c9_extractFirstFile (filesJson : Option String) (cwd f : String)
    (rest : List String) :
    (parseJsonArray filesJson = [] → extractFirstFile filesJson cwd = "(no file)")
    ∧ (parseJsonArray filesJson = f :: rest → f ≠ "" →
        extractFirstFile filesJson "" = f)
    ∧ (∀ o : ObservationRow, rowFileColumn o = extractFirstFile o.files_modified "")
    ∧ (∀ sub : String, parseJsonArray filesJson = f :: rest → cwd ≠ "" →
        f = cwd ++ "/" ++ sub → sub ≠ "" →
        extractFirstFile filesJson cwd = sub) := by
  refine ⟨?_, ?_, ?_, ?_⟩
  · intro h
    unfold extractFirstFile
    rw [h]
  · intro h hne
    unfold extractFirstFile
    rw [h]
    dsimp only
    rw [if_neg (show ¬((("" : String) ≠ "") ∧ jsStartsWith f "" = true) by simp)]
    rw [if_neg hne]
  · intro o
    rfl
  · intro sub h hcwd hf hsub
    subst hf
    have hdata : (cwd ++ "/" ++ sub).data = (cwd.data ++ ['/']) ++ sub.data := by
      rw [String.data_append, String.data_append]
    have hpre : cwd.data <+: (cwd ++ "/" ++ sub).data := by
      rw [hdata, List.append_assoc]
      exact List.prefix_append _ _
    have hstart : jsStartsWith (cwd ++ "/" ++ sub) cwd = true := by
      unfold jsStartsWith
      rw [List.isPrefixOf_iff_prefix]
      exact hpre
    have hsubstr : jsSubstringFrom (cwd ++ "/" ++ sub) (jsLength cwd + 1) = sub := by
      unfold jsSubstringFrom jsLength
      rw [hdata, show cwd.data.length + 1 = (cwd.data ++ ['/']).length by simp,
        List.drop_left]
    unfold extractFirstFile
    rw [h]
    dsimp only
    rw [if_pos (⟨hcwd, hstart⟩ : cwd ≠ "" ∧ jsStartsWith (cwd ++ "/" ++ sub) cwd = true)]
    rw [hsubstr, if_neg hsub]

/-- C9, witness: the empty-list fallback, the plain first-path case, and the
relativization case, each at concrete serialized inputs. -/
theorem c9_witness :
    extractFirstFile (some "[]") "/w" = "(no file)"
    ∧ extractFirstFile (some (encodeJsonArray ["/w/d/x.txt"])) "" = "/w/d/x.txt"
    ∧ extractFirstFile (some (encodeJsonArray ["/w/d/x.txt"])) "/w/d" = "x.txt" := by
  refine ⟨?_, ?_, ?_⟩
  · exact (c9_extractFirstFile (some "[]") "/w" "x" []).1 (by decide)
  · exact (c9_extractFirstFile (some (encodeJsonArray ["/w/d/x.txt"])) ""
      "/w/d/x.txt" []).2.1 (by decide) (by decide)
  · exact (c9_extractFirstFile (some (encodeJsonArray ["/w/d/x.txt"])) "/w/d"
      "/w/d/x.txt" []).2.2.2 "x.txt" (by decide) (by decide) (by decide) (by decide)

/-- C10: when `storeObservation` is given an empty string for title,
subtitle or narrative, the stored row (as fetched back by
`getObservationById`) holds NULL for that field, not the empty string
(`observation.field || null` coerces empty strings to null). -/
theorem c10_empty_strings_stored_null (db : DB) (hfresh : db.wfObsIds)
    (sid p : String) (input : ObservationInput) (pn : Option Nat) (dt now : Nat)
    (ht : checkObsType (jsOrStr input.type "change") = true) :
    ∃ row, getObservationById (storeObservation db sid p input pn dt now).1
        db.nextObservationId = some row
      ∧ (input.title = some "" → row.title = none)
      ∧ (input.subtitle = some "" → row.subtitle = none)
      ∧ (input.narrative = some "" → row.narrative = none) := by
  refine ⟨_, getObservationById_storeObservation db hfresh sid p input pn dt now ht,
    ?_, ?_, ?_⟩ <;>
    (intro h; simp [storedObsRow, jsOrNull, h])

/-- Observation input with all three text fields supplied as empty strings. -/
def c10Input : ObservationInput :=
  { type := none, title := some "", subtitle := some "", facts := none
    narrative := some "", concepts := none, files_read := none, files_modified := none }

/-- C10, witness: storing empty-string text fields on the empty database and
fetching the row back yields NULL in all three fields. -/
theorem c10_witness :
    ∃ row, getObservationById (storeObservation emptyDB "s10" "p" c10Input none 0 3).1
        emptyDB.nextObservationId = some row
      ∧ (c10Input.title = some "" → row.title = none)
      ∧ (c10Input.subtitle = some "" → row.subtitle = none)
      ∧ (c10Input.narrative = some "" → row.narrative = none) :=
  c10_empty_strings_stored_null emptyDB (by decide) "s10" "p" c10Input none 0 3 (by rfl)

/-- C7, counterexample: with no session row present, `storeObservation` still
fails when the observation's type is the invalid non-empty string "foo" - so
"succeeds for every observation fields" is false as stated; the auto-create
guarantee holds only for inputs whose coerced type passes the schema check. -/
theorem c7_counterexample :
    emptyDB.sessions = []
    ∧ (storeObservation emptyDB "s7x" "proj" fooInput none 0 0).2
        = Except.error "CHECK constraint failed: observations" := by
  exact ⟨rfl, rfl⟩
